import Mathlib

/-
  Verification development for the Etaler OpenCL backend
  (src/Etaler/Backends/OpenCLBackend.cpp).

  The C++ source is shallowly embedded: pure helpers become Lean functions,
  the stateful kernel cache and buffer store become explicit state passing,
  and the OpenCL runtime (program builds, kernel construction, queue
  enqueues) is abstracted as an oracle `Device` that supplies the error
  codes the real driver would return.  C++ exceptions become an error
  component carried next to the (possibly partially mutated) state, because
  a thrown exception in the source leaves already-performed member mutations
  in place.  `std::hash<std::string>` is implementation defined, so it is a
  parameter `h : String → Nat` of every definition that uses it.
  Machine integer widths are not modelled (sizes are element counts, far
  below 2^64).
-/

namespace et



/-! ### Association lists, modelling `std::map` members -/

/-- Lookup in an association list (the model of `std::map::find`). -/
def alookup {α : Type} : List (String × α) → String → Option α
  | [], _ => none
  | (k', v) :: rest, k => if k' = k then some v else alookup rest k

/-- Insert-or-assign in an association list (the model of `std::map::operator[]`
followed by assignment). -/
def ainsert {α : Type} : List (String × α) → String → α → List (String × α)
  | [], k, v => [(k, v)]
  | (k', v') :: rest, k, v =>
      if k' = k then (k, v) :: rest else (k', v') :: ainsert rest k v

/-! ### `selectWorkSize` (OpenCLBackend.cpp lines 20–24) -/

/-- Embedding of `selectWorkSize`: round `size` up to a multiple of `mul_of`,
then clamp to `mx`. -/
def selectWorkSize (mx mul_of size : Nat) : Nat :=
  let round := fun v => ((v / mul_of) * mul_of) + (if v % mul_of = 0 then 0 else mul_of)
  min mx (round size)

/-! ### Hex digest (`hash_string`, OpenCLBackend.cpp lines 26–32) -/

/-- A single lowercase hexadecimal digit, as printed by `std::hex`. -/
def hexChar (d : Nat) : Char :=
  if d < 10 then Char.ofNat (48 + d) else Char.ofNat (87 + d)

/-- Numeric value of a hex digit character (left inverse of `hexChar`). -/
def hexVal (c : Char) : Nat :=
  if c.toNat ≥ 97 then c.toNat - 87 else c.toNat - 48

/-- Little-endian hex digits of `n`, with explicit fuel (first argument) so the
definition is structurally recursive and kernel-evaluable. -/
def toHexAux : Nat → Nat → List Char
  | 0, _ => []
  | _ + 1, 0 => []
  | fuel + 1, n + 1 => hexChar ((n + 1) % 16) :: toHexAux fuel ((n + 1) / 16)

/-- Lowercase hexadecimal rendering of a natural number, most significant digit
first, `"0"` for zero — what `ss << std::hex << hash` produces. -/
def natToHex (n : Nat) : String :=
  if n = 0 then "0" else String.mk (toHexAux n n).reverse

/-- Embedding of `hash_string`: hex digest of `std::hash<std::string>`, the
latter abstracted as the parameter `h`. -/
def hash_string (h : String → Nat) (s : String) : String :=
  natToHex (h s)

/-- Reading hex digits back, little endian. -/
def fromHexList : List Char → Nat
  | [] => 0
  | c :: rest => hexVal c + 16 * fromHexList rest

/-! ### The OpenCL runtime oracle

The behaviour of the OpenCL driver (`cl::Program::build`, the `cl::Kernel`
constructor, and every `enqueue*` call on the command queue) is abstracted as
a record of result-code functions.  `enqueue` is indexed by how many queue
operations the backend has issued so far. -/

structure Device where
  buildErr : List String → String → Int
  buildLog : List String → String → String
  kernelErr : List String → String → String → Int
  enqueue : Nat → Int

/-! ### KernelManager (OpenCLBackend.cpp lines 118–171) -/

/-- A device `cl::Program`: the sources and flags it was built from, plus a
serial number of the device compilation that produced it (so that programs
built by different compilations are distinguishable). -/
structure Program where
  srcs : List String
  flags : String
  buildId : Nat
deriving DecidableEq, Repr

/-- A `cl::Kernel`: an entry point resolved inside a built program. -/
structure Kernel where
  prog : Program
  name : String
deriving DecidableEq, Repr

/-- Embedding of `KernelManager::Application`: the per-program kernel map. -/
structure App where
  kernels : List (String × Kernel)
deriving DecidableEq, Repr

/-- The KernelManager state: the `apps_` map plus the number of device
compilations performed so far (`builds` doubles as the next fresh
`Program.buildId`). -/
structure KernelManagerState where
  apps : List (String × App)
  builds : Nat
deriving DecidableEq, Repr

/-- The empty kernel cache. -/
def kmEmpty : KernelManagerState := ⟨[], 0⟩

/-- The kernel-resolution loop inside `compileKernel`: for each requested
entry-point name construct a `cl::Kernel`; on the first failure stop with the
error message the C++ code throws, keeping the kernels inserted so far (the
C++ loop mutates `app.kernels` in place before throwing). -/
def resolveKernels (dev : Device) (prog : Program) (program_name : String) :
    List String → App → App × Option String
  | [], app => (app, none)
  | n :: rest, app =>
      if dev.kernelErr prog.srcs prog.flags n ≠ 0 then
        (app, some ("Kernel " ++ n ++ " not found in program " ++ program_name))
      else
        resolveKernels dev prog program_name rest ⟨ainsert app.kernels n ⟨prog, n⟩⟩

/-- Embedding of the three-argument `KernelManager::compileKernel` overload
(lines 132–156).  The second component is the thrown exception's message, if
any; the first component is the state of `apps_` after the call, including
mutations performed before a throw. -/
def compileKernel (dev : Device) (st : KernelManagerState) (srcs : List String)
    (program_name : String) (kernel_names : List String) (force_override : Bool)
    (flags : String) : KernelManagerState × Option String :=
  if (alookup st.apps program_name).isSome ∧ force_override = false then
    (st, none)
  else
    let err := dev.buildErr srcs flags
    if err ≠ 0 then
      (st, some ("Error building OpenCL program: " ++ program_name ++ ", Error:"
        ++ toString err ++ "\n" ++ dev.buildLog srcs flags))
    else
      let prog : Program := ⟨srcs, flags, st.builds⟩
      let app0 := (alookup st.apps program_name).getD ⟨[]⟩
      let r := resolveKernels dev prog program_name kernel_names app0
      (⟨ainsert st.apps program_name r.1, st.builds + 1⟩, r.2)

/-- Modelled from the spec: `KernelManager::kernel(programName, entryPointName)`
is declared in OpenCLBackend.hpp, which is not among the analysed sources; per
§4.2 it is a pure lookup in the name→program→kernel maps. -/
def kernelLookup (st : KernelManagerState) (program_name kernel_name : String) :
    Option Kernel :=
  (alookup st.apps program_name).bind fun app => alookup app.kernels kernel_name

/-- Embedding of `readAll` mapped over a path list, as done by
`compileFromFile` (lines 164–171); the filesystem is the oracle `files`.
The C++ message ends with `strerror(errno)`, elided here. -/
def readAllFiles (files : String → Option String) : List String → Except String (List String)
  | [] => .ok []
  | p :: rest =>
      match files p with
      | none => .error ("Cannot open file " ++ p ++ ". ")
      | some s => (readAllFiles files rest).map (fun l => s :: l)

/-- Embedding of the list-of-paths `KernelManager::compileFromFile`
(lines 164–171): read every path, then delegate to `compileKernel`. -/
def compileFromFile (dev : Device) (files : String → Option String)
    (st : KernelManagerState) (paths : List String) (program_name : String)
    (kernel_names : List String) (force_override : Bool) (flags : String) :
    KernelManagerState × Option String :=
  match readAllFiles files paths with
  | .error e => (st, some e)
  | .ok srcs => compileKernel dev st srcs program_name kernel_names force_override flags

/-! ### Tensors and buffers (OpenCLBackend.cpp lines 65–116, 247–284) -/

/-- Element types of the tensor runtime (`DType`, declared outside the
analysed source). Only the constructors the source uses are modelled. -/
inductive DType where
  | Unknown
  | Bool
  | Int32
  | Float
deriving DecidableEq, Repr

/-- Modelled from the spec: `size_of(dtype)`/`dtypeToSize`, the element byte
width, is defined outside the analysed source (§3 invariant
`buffer byte size == volume(shape) * size_of(dtype)`). -/
def dtypeToSize : DType → Nat
  | .Unknown => 0
  | .Bool => 1
  | .Int32 => 4
  | .Float => 4

/-- Modelled from the spec: `to_ctype_string`, the compiler-visible type name
of a dtype used by `cast`'s specialization flags (§4.4), is defined outside
the analysed source. -/
def to_ctype_string : DType → String
  | .Unknown => "unknown"
  | .Bool => "bool"
  | .Int32 => "int"
  | .Float => "float"

/-- Embedding of `Shape::volume()`: the number of elements, the product of the dimensions
(declared outside the analysed source; per §3, `volume(shape)`). -/
def volume (shape : List Nat) : Nat := shape.prod

/-- A tensor handle (`OpenCLTensor`): shape, dtype and the identifier of the
device buffer backing it.  Buffer identifiers index into
`BackendState.bufSizes`. -/
structure Tensor where
  shape : List Nat
  dtype : DType
  bufferId : Nat
deriving DecidableEq, Repr

/-- Embedding of `TensorImpl::size()`: the element count, `volume(shape)` (declared outside
the analysed source; the spec uses it as "input size"). -/
def Tensor.size (t : Tensor) : Nat := volume t.shape

/-- Embedding of `shape().back()`, the last dimension (`MAX_SYNAPSE_PER_CELL`); `back()` on
an empty shape is undefined behaviour in C++, totalised here with default 0. -/
def backDim (shape : List Nat) : Nat := shape.getLastD 0

/-- The mutable state of an `OpenCLBackend` instance: the kernel cache, the
sizes of all device buffers allocated so far (a buffer's id is its index, so
allocation only ever appends), and how many queue operations have been
issued. -/
structure BackendState where
  km : KernelManagerState
  bufSizes : List Nat
  enqueueCount : Nat
deriving DecidableEq, Repr

/-- The process environment a backend runs in: the OpenCL device oracle, the
filesystem, `std::hash<std::string>` (implementation defined) and the
`kernel_root_` path. -/
structure Env where
  dev : Device
  files : String → Option String
  strHash : String → Nat
  kernel_root : String

/-- Embedding of `OpenCLBackend::allocBuffer` (declared outside the analysed source; §4.3
`allocate(byteSize) -> Buffer`): returns a fresh buffer id backed by
`byteSize` bytes. -/
def allocBuffer (st : BackendState) (byteSize : Nat) : BackendState × Nat :=
  ({ st with bufSizes := st.bufSizes ++ [byteSize] }, st.bufSizes.length)

/-- Issue one operation on the command queue and obtain the device's result
code for it. -/
def enq (dev : Device) (st : BackendState) : BackendState × Int :=
  ({ st with enqueueCount := st.enqueueCount + 1 }, dev.enqueue st.enqueueCount)

/-- Embedding of `OpenCLBackend::createTensor` (lines 65–84).  `hasData` is
whether `data != nullptr`; the host→device write is a map followed by an
unmap, each a queue operation with a device result code.  Kernel argument
contents are outside the model (kernels are opaque), only sizes matter. -/
def createTensor (env : Env) (st : BackendState) (shape : List Nat)
    (dtype : DType) (hasData : Bool) : BackendState × Except String Tensor :=
  if dtype = DType.Unknown then
    (st, .error "et_assert failed: dtype != DType::Unknown")
  else
    let buf_size := volume shape * dtypeToSize dtype
    let a := allocBuffer st buf_size
    if hasData then
      let m := enq env.dev a.1
      if m.2 ≠ 0 then
        (m.1, .error ("OpenCL buffer map failed. Error: " ++ toString m.2
          ++ ", map size " ++ toString buf_size))
      else
        let u := enq env.dev m.1
        if u.2 ≠ 0 then
          (u.1, .error ("OpenCL buffer write failed. Error: " ++ toString u.2
            ++ ", write size " ++ toString buf_size))
        else
          (u.1, .ok ⟨shape, dtype, a.2⟩)
    else
      (a.1, .ok ⟨shape, dtype, a.2⟩)

/-- Embedding of `OpenCLBackend::copy` (lines 272–284): allocate a same-sized
buffer, enqueue a device-to-device copy, fail on a bad result code. -/
def copy (env : Env) (st : BackendState) (x : Tensor) :
    BackendState × Except String Tensor :=
  let buf_size := x.size * dtypeToSize x.dtype
  let a := allocBuffer st buf_size
  let c := enq env.dev a.1
  if c.2 ≠ 0 then
    (c.1, .error ("Data copy enqueuing failed. Error " ++ toString c.2))
  else
    (c.1, .ok ⟨x.shape, x.dtype, a.2⟩)

/-! ### Specialization keys and program names (§4.4) -/

/-- Build-flags string of `overlapScore` (line 190).  `str(!has_unconnected_synapse)`
goes through `std::to_string(int)`, hence `"0"`/`"1"`. -/
def osArgs (inputSize maxSynapse : Nat) (has_unconnected : Bool) : String :=
  "-DINPUT_SIZE=" ++ toString inputSize ++ " -DMAX_SYNAPSE_PER_CELL="
    ++ toString maxSynapse ++ " -DNO_UNUSED_SYNAPSE=" ++ (if has_unconnected then "0" else "1")

/-- Program name of `overlapScore` (line 192). -/
def osProgramName (h : String → Nat) (inputSize maxSynapse : Nat)
    (has_unconnected : Bool) : String :=
  "overlapScore" ++ hash_string h (osArgs inputSize maxSynapse has_unconnected)

/-- Build-flags string of `globalInhibition` (line 223). -/
def giArgs (inputSize : Nat) : String :=
  "-DINPUT_SIZE=" ++ toString inputSize ++ " -DMAX_INPUT_VALUE=" ++ toString 2000

/-- Program name of `globalInhibition` (line 225): note the `"overlapScore"`
prefix in the source. -/
def giProgramName (h : String → Nat) (inputSize : Nat) : String :=
  "overlapScore" ++ hash_string h (giArgs inputSize)

/-- Build-flags string of `cast` (line 250). -/
def castArgs (fromType toType : DType) : String :=
  "-DInType=" ++ to_ctype_string fromType ++ " -DOutType=" ++ to_ctype_string toType

/-- Program name of `cast` (line 252). -/
def castProgramName (h : String → Nat) (fromType toType : DType) : String :=
  "cast" ++ hash_string h (castArgs fromType toType)

/-- Build-flags string of `learnCorrilation` (line 302); `NO_UNUSED_SYNAPSE` is
the literal `"true"`. -/
def lcArgs (inputSize maxSynapse : Nat) : String :=
  "-DINPUT_SIZE=" ++ toString inputSize ++ " -DMAX_SYNAPSE_PER_CELL="
    ++ toString maxSynapse ++ " -DNO_UNUSED_SYNAPSE=true"

/-- Program name of `learnCorrilation` (line 304). -/
def lcProgramName (h : String → Nat) (inputSize maxSynapse : Nat) : String :=
  "learnCorrilation" ++ hash_string h (lcArgs inputSize maxSynapse)

/-- Build-flags string of `sortSynapse` (line 333). -/
def ssArgs (maxSynapse : Nat) : String :=
  "-DMAX_SYNAPSE_PER_CELL=" ++ toString maxSynapse

/-- Program name of `sortSynapse` (line 335). -/
def ssProgramName (h : String → Nat) (maxSynapse : Nat) : String :=
  "sortSynapse" ++ hash_string h (ssArgs maxSynapse)

/-! ### The five dispatcher operations (§4.4)

Each embedding mirrors its C++ function line by line: `et_assert`s become
error returns (the spec's TypeMismatchError), the compile-or-fetch step goes
through `compileFromFile`, argument binding is a no-op (kernel bodies are
opaque), and each `enqueue*` call consumes one device result code.  Scalar
kernel arguments (floats, thresholds) do not influence cache, buffers or
control flow and are omitted. -/

/-- Lift `compileFromFile` to backend state. -/
def compileFromFileB (env : Env) (st : BackendState) (paths : List String)
    (program_name : String) (kernel_names : List String) (force_override : Bool)
    (flags : String) : BackendState × Option String :=
  let r := compileFromFile env.dev env.files st.km paths program_name
    kernel_names force_override flags
  ({ st with km := r.1 }, r.2)

/-- Embedding of `OpenCLBackend::overlapScore` (lines 174–210). -/
def overlapScore (env : Env) (st : BackendState)
    (x connections permeances y : Tensor) (has_unconnected_synapse : Bool) :
    BackendState × Except String Unit :=
  if ¬ (x.dtype = DType.Bool) then (st, .error "et_assert failed: x->dtype() == DType::Bool")
  else if ¬ (connections.dtype = DType.Int32) then
    (st, .error "et_assert failed: connections->dtype() == DType::Int32")
  else if ¬ (permeances.dtype = DType.Float) then
    (st, .error "et_assert failed: permeances->dtype() == DType::Float")
  else if ¬ (y.dtype = DType.Int32) then
    (st, .error "et_assert failed: y->dtype() == DType::Int32")
  else if ¬ (connections.shape = permeances.shape) then
    (st, .error "et_assert failed: connections->shape() == permeances->shape()")
  else
    let args := osArgs x.size (backDim connections.shape) has_unconnected_synapse
    let program_name := osProgramName env.strHash x.size (backDim connections.shape)
      has_unconnected_synapse
    let c := compileFromFileB env st [env.kernel_root ++ "overlapScore.cl"]
      program_name ["overlapScore"] false args
    match c with
    | (st1, some e) => (st1, .error e)
    | (st1, none) =>
        let q := enq env.dev st1
        if q.2 ≠ 0 then
          (q.1, .error ("OpenCL kernel execution failed. Code " ++ toString q.2))
        else
          (q.1, .ok ())

/-- Embedding of `OpenCLBackend::globalInhibition` (lines 212–245).  The
result codes of both `enqueueNDRangeKernel` calls are discarded, exactly as
in the source. -/
def globalInhibition (env : Env) (st : BackendState) (x y : Tensor) :
    BackendState × Except String Unit :=
  if ¬ (x.dtype = DType.Int32) then (st, .error "et_assert failed: x->dtype() == DType::Int32")
  else if ¬ (y.dtype = DType.Bool) then
    (st, .error "et_assert failed: y->dtype() == DType::Bool")
  else if ¬ (x.shape = y.shape) then
    (st, .error "et_assert failed: x->shape() == y->shape()")
  else
    let args := giArgs x.size
    let program_name := giProgramName env.strHash x.size
    let c := compileFromFileB env st [env.kernel_root ++ "globalInhibition.cl"]
      program_name ["fastTopK", "threshold"] false args
    match c with
    | (st1, some e) => (st1, .error e)
    | (st1, none) =>
        let a := allocBuffer st1 4
        let q1 := enq env.dev a.1
        let q2 := enq env.dev q1.1
        (q2.1, .ok ())

/-- Embedding of `OpenCLBackend::cast` (lines 247–263).  The result code of
`enqueueNDRangeKernel` is discarded, exactly as in the source. -/
def cast (env : Env) (st : BackendState) (x : Tensor) (toType : DType) :
    BackendState × Except String Tensor :=
  let args := castArgs x.dtype toType
  let program_name := castProgramName env.strHash x.dtype toType
  let c := compileFromFileB env st [env.kernel_root ++ "cast.cl"]
    program_name ["cast"] false args
  match c with
  | (st1, some e) => (st1, .error e)
  | (st1, none) =>
      match createTensor env st1 x.shape toType false with
      | (st2, .error e) => (st2, .error e)
      | (st2, .ok res) =>
          let q := enq env.dev st2
          (q.1, .ok res)

/-- Embedding of `OpenCLBackend::learnCorrilation` (lines 286–322). -/
def learnCorrilation (env : Env) (st : BackendState)
    (x learn connections permeances : Tensor) :
    BackendState × Except String Unit :=
  if ¬ (connections.shape = permeances.shape) then
    (st, .error "et_assert failed: connections->shape() == permeances->shape()")
  else if ¬ (x.shape = learn.shape) then
    (st, .error "et_assert failed: x->shape() == learn->shape()")
  else if ¬ (x.dtype = DType.Bool) then
    (st, .error "et_assert failed: x->dtype() == DType::Bool")
  else if ¬ (learn.dtype = DType.Bool) then
    (st, .error "et_assert failed: learn->dtype() == DType::Bool")
  else if ¬ (connections.dtype = DType.Int32) then
    (st, .error "et_assert failed: connections->dtype() == DType::Int32")
  else if ¬ (permeances.dtype = DType.Float) then
    (st, .error "et_assert failed: permeances->dtype() == DType::Float")
  else
    let args := lcArgs x.size (backDim connections.shape)
    let program_name := lcProgramName env.strHash x.size (backDim connections.shape)
    let c := compileFromFileB env st [env.kernel_root ++ "learnCorrilation.cl"]
      program_name ["learnCorrilation"] false args
    match c with
    | (st1, some e) => (st1, .error e)
    | (st1, none) =>
        let q := enq env.dev st1
        if q.2 ≠ 0 then
          (q.1, .error ("OpenCL kernel execution failed. Code " ++ toString q.2))
        else
          (q.1, .ok ())

/-- Embedding of `OpenCLBackend::sortSynapse` (lines 324–354): compile, two
scratch allocations, one checked enqueue. -/
def sortSynapse (env : Env) (st : BackendState) (connections permeances : Tensor) :
    BackendState × Except String Unit :=
  if ¬ (connections.shape = permeances.shape) then
    (st, .error "et_assert failed: connections->shape() == permeances->shape()")
  else if ¬ (connections.dtype = DType.Int32) then
    (st, .error "et_assert failed: connections->dtype() == DType::Int32")
  else if ¬ (permeances.dtype = DType.Float) then
    (st, .error "et_assert failed: permeances->dtype() == DType::Float")
  else
    let args := ssArgs (backDim connections.shape)
    let program_name := ssProgramName env.strHash (backDim connections.shape)
    let c := compileFromFileB env st [env.kernel_root ++ "sort.cl"]
      program_name ["sortSynapse"] false args
    match c with
    | (st1, some e) => (st1, .error e)
    | (st1, none) =>
        let a1 := allocBuffer st1 (connections.size * 4)
        let a2 := allocBuffer a1.1 (permeances.size * 4)
        let q := enq env.dev a2.1
        if q.2 ≠ 0 then
          (q.1, .error ("OpenCL kernel execution failed. Code " ++ toString q.2))
        else
          (q.1, .ok ())

/-! ### Invariants and supporting lemmas -/

/-- The §3 invariant: the byte size of the buffer backing `t` equals
`volume(shape) * size_of(dtype)`. -/
def validTensor (st : BackendState) (t : Tensor) : Prop :=
  st.bufSizes[t.bufferId]? = some (volume t.shape * dtypeToSize t.dtype)

/-- A fully cached kernel-cache state used to exercise cache-hit behaviour. -/
def dev0 : Device := ⟨fun _ _ => 0, fun _ _ => "", fun _ _ _ => 0, fun _ => 0⟩

/-- A cache state holding a previously compiled kernel under name `p`. -/
def kOld : Kernel := ⟨⟨["old"], "", 0⟩, "k"⟩

def kmOld : KernelManagerState := ⟨[("p", ⟨[("k", kOld)]⟩)], 1⟩

/-- A device on which every program builds but only entry point `k1`
resolves. -/
def dev4 : Device := ⟨fun _ _ => 0, fun _ _ => "", fun _ _ n => if n = "k1" then 0 else 1, fun _ => 0⟩

/-- A device whose program builds always fail with code −11. -/
def dev4b : Device := ⟨fun _ _ => -11, fun _ _ => "LOG", fun _ _ _ => 0, fun _ => 0⟩

/-- A stand-in string hash used only to exercise theorems at concrete
inputs. -/
def h0 : String → Nat := String.length

/-- A failing device: every queue operation reports error code −54.  Programs
still build and entry points still resolve. -/
def dev5 : Device := ⟨fun _ _ => 0, fun _ _ => "", fun _ _ _ => 0, fun _ => -54⟩

def env5 : Env := ⟨dev5, fun _ => some "src", fun _ => 0, ""⟩

def st5 : BackendState := ⟨kmEmpty, [16, 4], 0⟩

def x5 : Tensor := ⟨[4], DType.Int32, 0⟩

def y5 : Tensor := ⟨[4], DType.Bool, 1⟩

def x5b : Tensor := ⟨[4], DType.Bool, 0⟩

def c5 : Tensor := ⟨[4, 2], DType.Int32, 1⟩

def p5 : Tensor := ⟨[4, 2], DType.Float, 2⟩

def y5b : Tensor := ⟨[4], DType.Int32, 3⟩

def st5b : BackendState := ⟨kmEmpty, [4, 32, 32, 16], 0⟩

theorem alookup_ainsert {α : Type} (l : List (String × α)) (k k' : String) (v : α) :
    alookup (ainsert l k v) k' = if k = k' then some v else alookup l k' := by
  induction l with
  | nil => simp [ainsert, alookup]
  | cons p rest ih =>
      obtain ⟨k₀, v₀⟩ := p
      simp only [ainsert]
      by_cases h0 : k₀ = k
      · subst h0
        simp only [if_pos rfl, alookup]
        by_cases h1 : k₀ = k' <;> simp [h1]
      · simp only [if_neg h0, alookup]
        by_cases h1 : k₀ = k'
        · have hkk : ¬ k = k' := fun h => h0 (h1.trans h.symm)
          simp [h1, hkk]
        · simp [h1, ih]

theorem alookup_ainsert_self {α : Type} (l : List (String × α)) (k : String) (v : α) :
    alookup (ainsert l k v) k = some v := by
  simp [alookup_ainsert]

/-- The rounding lambda inside `selectWorkSize` computes `ceil(size/mul)*mul`
(expressed over naturals as `(size + mul - 1) / mul * mul`). -/
theorem round_eq_ceil (mul size : Nat) :
    (size / mul) * mul + (if size % mul = 0 then 0 else mul)
      = (size + mul - 1) / mul * mul := by
  rcases Nat.eq_zero_or_pos mul with h0 | hpos
  · subst h0; simp
  · by_cases hr : size % mul = 0
    · obtain ⟨q, hq⟩ : mul ∣ size := Nat.dvd_of_mod_eq_zero hr
      subst hq
      have h1 : mul * q + mul - 1 = (mul - 1) + mul * q := by omega
      have h2 : mul * q / mul = q := Nat.mul_div_cancel_left q hpos
      have h3 : ((mul - 1) + mul * q) / mul = (mul - 1) / mul + q :=
        Nat.add_mul_div_left (mul - 1) q hpos
      have h4 : (mul - 1) / mul = 0 := Nat.div_eq_of_lt (by omega)
      simp [hr, h1, h2, h3, h4, Nat.mul_comm]
    · have hdm := Nat.div_add_mod size mul
      have hr1 : 1 ≤ size % mul := Nat.one_le_iff_ne_zero.mpr hr
      have hrlt : size % mul < mul := Nat.mod_lt _ hpos
      have hmulq : mul * (size / mul + 1) = mul * (size / mul) + mul :=
        Nat.mul_succ mul (size / mul)
      have h1 : size + mul - 1 = (size % mul - 1) + mul * (size / mul + 1) := by omega
      have h3 : ((size % mul - 1) + mul * (size / mul + 1)) / mul
          = (size % mul - 1) / mul + (size / mul + 1) :=
        Nat.add_mul_div_left _ _ hpos
      have h4 : (size % mul - 1) / mul = 0 := Nat.div_eq_of_lt (by omega)
      simp [hr, h1, h3, h4]
      ring

/-- Closed form of `selectWorkSize`. -/
theorem selectWorkSize_eq (mx mul size : Nat) :
    selectWorkSize mx mul size = min mx ((size + mul - 1) / mul * mul) := by
  simp only [selectWorkSize]
  rw [round_eq_ceil]

theorem hexVal_hexChar (d : Nat) (hd : d < 16) : hexVal (hexChar d) = d := by
  interval_cases d <;> decide

theorem fromHexList_toHexAux (fuel n : Nat) (hn : n ≤ fuel) :
    fromHexList (toHexAux fuel n) = n := by
  induction fuel generalizing n with
  | zero =>
      have : n = 0 := Nat.le_zero.mp hn
      subst this; simp [toHexAux, fromHexList]
  | succ fuel ih =>
      cases n with
      | zero => simp [toHexAux, fromHexList]
      | succ m =>
          have hdiv : (m + 1) / 16 ≤ fuel := by
            have h1 : (m + 1) / 16 < m + 1 := Nat.div_lt_self (Nat.succ_pos m) (by omega)
            omega
          have hmod : (m + 1) % 16 < 16 := Nat.mod_lt _ (by omega)
          simp [toHexAux, fromHexList, ih _ hdiv, hexVal_hexChar _ hmod]
          omega

theorem natToHex_injective : Function.Injective natToHex := by
  intro a b hab
  by_cases ha : a = 0 <;> by_cases hb : b = 0
  · omega
  · exfalso
    simp only [natToHex, ha, hb, if_true, if_false, if_neg hb] at hab
    have hlist : ['0'] = (toHexAux b b).reverse := by
      have := congrArg String.data hab
      simpa using this
    have : toHexAux b b = ['0'] := by
      have := congrArg List.reverse hlist
      simpa using this.symm
    have hb0 : fromHexList (toHexAux b b) = b := fromHexList_toHexAux b b (Nat.le_refl b)
    rw [this] at hb0
    simp [fromHexList, hexVal] at hb0
    omega
  · exfalso
    simp only [natToHex, ha, hb, if_false, if_true, if_neg ha] at hab
    have hlist : (toHexAux a a).reverse = ['0'] := by
      have := congrArg String.data hab
      simpa using this
    have : toHexAux a a = ['0'] := by
      have := congrArg List.reverse hlist
      simpa using this
    have ha0 : fromHexList (toHexAux a a) = a := fromHexList_toHexAux a a (Nat.le_refl a)
    rw [this] at ha0
    simp [fromHexList, hexVal] at ha0
    omega
  · simp only [natToHex, if_neg ha, if_neg hb] at hab
    have hlist : (toHexAux a a).reverse = (toHexAux b b).reverse := by
      have := congrArg String.data hab
      simpa using this
    have hlist2 : toHexAux a a = toHexAux b b := by
      have := congrArg List.reverse hlist
      simpa using this
    have h1 := fromHexList_toHexAux a a (Nat.le_refl a)
    have h2 := fromHexList_toHexAux b b (Nat.le_refl b)
    rw [hlist2, h2] at h1
    exact h1.symm

theorem hash_string_ne_of_hash_ne (h : String → Nat) (s1 s2 : String)
    (hne : h s1 ≠ h s2) : hash_string h s1 ≠ hash_string h s2 := by
  intro heq
  exact hne (natToHex_injective heq)

/-! #### KernelManager lemmas -/

/-- When every requested entry point resolves, the loop reports no error and
every requested name maps to a kernel of the freshly built program; other
names keep whatever the starting app had. -/
theorem resolveKernels_all_ok (dev : Device) (prog : Program) (pname : String)
    (names : List String) (app : App)
    (hok : ∀ n ∈ names, dev.kernelErr prog.srcs prog.flags n = 0) :
    (resolveKernels dev prog pname names app).2 = none ∧
    ∀ n, alookup (resolveKernels dev prog pname names app).1.kernels n
      = if n ∈ names then some ⟨prog, n⟩ else alookup app.kernels n := by
  induction names generalizing app with
  | nil => simp [resolveKernels]
  | cons m rest ih =>
      have hm : dev.kernelErr prog.srcs prog.flags m = 0 := hok m (by simp)
      have hrest : ∀ n ∈ rest, dev.kernelErr prog.srcs prog.flags n = 0 :=
        fun n hn => hok n (by simp [hn])
      obtain ⟨ih1, ih2⟩ := ih ⟨ainsert app.kernels m ⟨prog, m⟩⟩ hrest
      constructor
      · simp [resolveKernels, hm, ih1]
      · intro n
        have h2 := ih2 n
        by_cases hn : n ∈ rest
        · simp [resolveKernels, hm, h2, hn]
        · by_cases hnm : n = m
          · subst hnm
            simp [resolveKernels, hm, h2, hn, alookup_ainsert]
          · have hne : ¬ n ∈ m :: rest := by simp [hn, hnm]
            have hmn : ¬ m = n := fun h => hnm h.symm
            simp [resolveKernels, hm, h2, hn, hne, alookup_ainsert, hmn]

/-- Backend steps only ever append buffers, so the size of an existing buffer
is never changed. -/
theorem validTensor_mono (st st' : BackendState) (t : Tensor)
    (hext : ∃ l, st'.bufSizes = st.bufSizes ++ l) (h : validTensor st t) :
    validTensor st' t := by
  obtain ⟨l, hl⟩ := hext
  unfold validTensor at h ⊢
  rw [hl]
  have hlt : t.bufferId < st.bufSizes.length := by
    rcases Nat.lt_or_ge t.bufferId st.bufSizes.length with h' | h'
    · exact h'
    · rw [List.getElem?_eq_none h'] at h
      cases h
  rw [List.getElem?_append_left hlt]
  exact h

theorem compileFromFileB_fst (env : Env) (st : BackendState) (paths : List String)
    (pname : String) (names : List String) (force : Bool) (flags : String) :
    (compileFromFileB env st paths pname names force flags).1.bufSizes = st.bufSizes ∧
    (compileFromFileB env st paths pname names force flags).1.enqueueCount = st.enqueueCount :=
  ⟨rfl, rfl⟩

theorem string_append_cancel_left (p x y : String) (hxy : p ++ x = p ++ y) : x = y := by
  apply String.ext
  have h1 : p.data ++ x.data = p.data ++ y.data := by
    rw [← String.data_append, ← String.data_append, hxy]
  exact List.append_cancel_left h1

theorem programName_ne_of_hash_ne (h : String → Nat) (pre a b : String)
    (hne : h a ≠ h b) : pre ++ hash_string h a ≠ pre ++ hash_string h b := by
  intro heq
  exact hash_string_ne_of_hash_ne h a b hne (string_append_cancel_left pre _ _ heq)

/-! ### Claim theorems -/

/-- C2 counterexample: at `max=8152, mul=64, size=8100` the helper returns
8128 (= `ceil(8100/64)*64 = 127*64`, which is below the cap), not the 8152
the claim states. -/
theorem selectWorkSize_8100_cex :
    selectWorkSize 8152 64 8100 = 8128 ∧ selectWorkSize 8152 64 8100 ≠ 8152 := by
  constructor <;> decide

/-- C2 (amended): for every `max`, `mul` and `size` the helper returns
`min(max, ceil(size/mul)*mul)`; at `max=8152, mul=64` it returns 8128 for
`size=8100` (not 8152: `ceil(8100/64)*64 = 8128 < 8152`), 64 for `size=64`
and 0 for `size=0`. -/
theorem selectWorkSize_spec (mx mul size : Nat) :
    selectWorkSize mx mul size = min mx ((size + mul - 1) / mul * mul) ∧
    selectWorkSize 8152 64 8100 = 8128 ∧
    selectWorkSize 8152 64 64 = 64 ∧
    selectWorkSize 8152 64 0 = 0 :=
  ⟨selectWorkSize_eq mx mul size, by decide, by decide, by decide⟩

/-- C3: the launched grid never exceeds the cap, and for the
`learnCorrilation`/`sortSynapse` parameters (`max=4096, mul=128`) it is always
a multiple of the group size; but for the `overlapScore` parameters
(`max=8152, mul=64`) the code is wrong: already at `size = 8129` the clamp
yields 8152, which is not a multiple of 64 (`8152 % 64 = 24`), so the grid
passed to `enqueueNDRangeKernel` with local size 64 is invalid. -/
theorem selectWorkSize_grid_bug :
    selectWorkSize 8152 64 8129 = 8152 ∧
    8152 % 64 = 24 ∧
    (∀ size : Nat, selectWorkSize 8152 64 size ≤ 8152) ∧
    (∀ size : Nat, selectWorkSize 4096 128 size ≤ 4096 ∧
      128 ∣ selectWorkSize 4096 128 size) := by
  refine ⟨by decide, by decide, fun size => Nat.min_le_left _ _, fun size => ?_⟩
  refine ⟨Nat.min_le_left _ _, ?_⟩
  have hround : 128 ∣ (size / 128) * 128 + (if size % 128 = 0 then 0 else 128) := by
    apply Nat.dvd_add
    · exact dvd_mul_left 128 (size / 128)
    · split <;> simp
  have hmax : (128 : Nat) ∣ 4096 := by decide
  rcases min_choice 4096 ((size / 128) * 128 + (if size % 128 = 0 then 0 else 128)) with
    hmin | hmin <;>
    · show 128 ∣ min 4096 ((size / 128) * 128 + (if size % 128 = 0 then 0 else 128))
      rw [hmin]
      first
        | exact hmax
        | exact hround

/-! ### Kernel-cache claims -/

theorem compileKernel_miss_builds (dev : Device) (st : KernelManagerState)
    (srcs : List String) (pname : String) (names : List String) (flags : String)
    (h0 : alookup st.apps pname = none) (hb : dev.buildErr srcs flags = 0) :
    (compileKernel dev st srcs pname names false flags).1.builds = st.builds + 1 ∧
    (alookup (compileKernel dev st srcs pname names false flags).1.apps pname).isSome = true := by
  simp [compileKernel, h0, hb, alookup_ainsert]

/-- C1: with the program name already cached and no force-override,
`compileKernel` is a complete no-op — identical state, no error, no device
compilation — whatever sources, kernel names or flags are passed; lookups
afterwards return exactly what they returned before.  Consequently compiling
the same name twice (second call without force-override) performs exactly one
device compilation. -/
theorem compileKernel_cache_hit (dev : Device) (st : KernelManagerState)
    (pname : String) (h : (alookup st.apps pname).isSome = true) :
    (∀ srcs names flags, compileKernel dev st srcs pname names false flags = (st, none)) ∧
    (∀ srcs names flags kname,
      kernelLookup (compileKernel dev st srcs pname names false flags).1 pname kname
        = kernelLookup st pname kname) ∧
    (∀ (st0 : KernelManagerState) srcs1 names1 flags1 srcs2 names2 flags2,
      alookup st0.apps pname = none → dev.buildErr srcs1 flags1 = 0 →
      (compileKernel dev
         (compileKernel dev st0 srcs1 pname names1 false flags1).1
         srcs2 pname names2 false flags2).1.builds = st0.builds + 1) := by
  have hhit : ∀ (stc : KernelManagerState), (alookup stc.apps pname).isSome = true →
      ∀ srcs names flags, compileKernel dev stc srcs pname names false flags = (stc, none) := by
    intro stc hc srcs names flags
    simp [compileKernel, hc]
  refine ⟨hhit st h, ?_, ?_⟩
  · intro srcs names flags kname
    rw [hhit st h srcs names flags]
  · intro st0 srcs1 names1 flags1 srcs2 names2 flags2 h0 hb
    obtain ⟨hbuilds, hsome⟩ := compileKernel_miss_builds dev st0 srcs1 pname names1 flags1 h0 hb
    rw [hhit _ hsome srcs2 names2 flags2]
    exact hbuilds

/-- Witness for C1 at a concrete cached state: the call is a no-op and the
old kernel is still what lookup returns. -/
theorem compileKernel_cache_hit_witness :
    compileKernel dev0 kmOld ["other source"] "p" ["k2"] false "-DX=9" = (kmOld, none) ∧
    kernelLookup (compileKernel dev0 kmOld ["other source"] "p" ["k2"] false "-DX=9").1 "p" "k"
      = kernelLookup kmOld "p" "k" :=
  ⟨(compileKernel_cache_hit dev0 kmOld "p" (by decide)).1 ["other source"] ["k2"] "-DX=9",
   (compileKernel_cache_hit dev0 kmOld "p" (by decide)).2.1 ["other source"] ["k2"] "-DX=9" "k"⟩

/-- C6: with force-override, `compileKernel` performs a device compilation
even though the name is cached, reports no error when the build and every
entry point succeed, and afterwards each requested entry point resolves to a
kernel of the program built by this very call — never the previously cached
kernel (old kernels carry an older build serial). -/
theorem compileKernel_force_recompiles (dev : Device) (st : KernelManagerState)
    (srcs : List String) (pname : String) (names : List String) (flags : String)
    (hb : dev.buildErr srcs flags = 0)
    (hk : ∀ n ∈ names, dev.kernelErr srcs flags n = 0)
    (hwf : ∀ kname k, kernelLookup st pname kname = some k → k.prog.buildId < st.builds) :
    (compileKernel dev st srcs pname names true flags).2 = none ∧
    (compileKernel dev st srcs pname names true flags).1.builds = st.builds + 1 ∧
    (∀ n ∈ names,
      kernelLookup (compileKernel dev st srcs pname names true flags).1 pname n
        = some ⟨⟨srcs, flags, st.builds⟩, n⟩) ∧
    (∀ n ∈ names, ∀ kold, kernelLookup st pname n = some kold →
      kernelLookup (compileKernel dev st srcs pname names true flags).1 pname n
        ≠ some kold) := by
  have hck : compileKernel dev st srcs pname names true flags
      = (⟨ainsert st.apps pname
            (resolveKernels dev ⟨srcs, flags, st.builds⟩ pname names
              ((alookup st.apps pname).getD ⟨[]⟩)).1, st.builds + 1⟩,
         (resolveKernels dev ⟨srcs, flags, st.builds⟩ pname names
           ((alookup st.apps pname).getD ⟨[]⟩)).2) := by
    simp [compileKernel, hb]
  obtain ⟨hr2, hrl⟩ := resolveKernels_all_ok dev ⟨srcs, flags, st.builds⟩ pname names
    ((alookup st.apps pname).getD ⟨[]⟩) hk
  have h3 : ∀ n ∈ names,
      kernelLookup (compileKernel dev st srcs pname names true flags).1 pname n
        = some ⟨⟨srcs, flags, st.builds⟩, n⟩ := by
    intro n hn
    rw [hck]
    simp only [kernelLookup, alookup_ainsert_self, Option.bind]
    rw [hrl n, if_pos hn]
  refine ⟨by rw [hck]; exact hr2, by rw [hck], h3, ?_⟩
  intro n hn kold hold heq
  rw [h3 n hn] at heq
  have hkid : kold.prog.buildId = st.builds := by
    cases heq
    rfl
  have := hwf n kold hold
  omega

/-- Witness for C6: recompiling name `p` with different sources replaces the
cached kernel. -/
theorem compileKernel_force_recompiles_witness :
    (compileKernel dev0 kmOld ["new src"] "p" ["k"] true "-DN=1").2 = none ∧
    (compileKernel dev0 kmOld ["new src"] "p" ["k"] true "-DN=1").1.builds = kmOld.builds + 1 ∧
    kernelLookup (compileKernel dev0 kmOld ["new src"] "p" ["k"] true "-DN=1").1 "p" "k"
      = some ⟨⟨["new src"], "-DN=1", kmOld.builds⟩, "k"⟩ ∧
    kernelLookup (compileKernel dev0 kmOld ["new src"] "p" ["k"] true "-DN=1").1 "p" "k"
      ≠ some kOld := by
  have hwf : ∀ kname k, kernelLookup kmOld "p" kname = some k → k.prog.buildId < kmOld.builds := by
    intro kname k hc
    simp [kernelLookup, kmOld, alookup] at hc
    obtain ⟨-, rfl⟩ := hc
    decide
  have hthm := compileKernel_force_recompiles dev0 kmOld ["new src"] "p" ["k"] "-DN=1"
    rfl (fun n _ => rfl) hwf
  exact ⟨hthm.1, hthm.2.1, hthm.2.2.1 "k" (by simp),
    hthm.2.2.2 "k" (by simp) kOld (by decide)⟩

/-- C4 counterexample: building succeeds but resolving `k2` fails, and the
cache is NOT left as it was — an entry for the program name containing the
already-resolved `k1` is retained. -/
theorem compileKernel_retained_entry_cex :
    (compileKernel dev4 kmEmpty ["src"] "prog" ["k1", "k2"] false "").2
      = some "Kernel k2 not found in program prog" ∧
    alookup (compileKernel dev4 kmEmpty ["src"] "prog" ["k1", "k2"] false "").1.apps "prog"
      = some ⟨[("k1", ⟨⟨["src"], "", 0⟩, "k1"⟩)]⟩ ∧
    (compileKernel dev4 kmEmpty ["src"] "prog" ["k1", "k2"] false "").1 ≠ kmEmpty := by
  refine ⟨?_, ?_, ?_⟩ <;> decide

/-- On a failing entry point the loop reports an error. -/
theorem resolveKernels_fail_isSome (dev : Device) (prog : Program) (pname : String)
    (names : List String) (app : App)
    (hex : ∃ n ∈ names, dev.kernelErr prog.srcs prog.flags n ≠ 0) :
    (resolveKernels dev prog pname names app).2.isSome = true := by
  induction names generalizing app with
  | nil => simp at hex
  | cons m rest ih =>
      obtain ⟨n, hn, hne⟩ := hex
      by_cases hm : dev.kernelErr prog.srcs prog.flags m ≠ 0
      · simp [resolveKernels, hm]
      · push_neg at hm
        have hnr : n ∈ rest := by
          rcases List.mem_cons.mp hn with hcase | hcase
          · subst hcase
            exact absurd hm hne
          · exact hcase
        have hcond : ¬ (dev.kernelErr prog.srcs prog.flags m ≠ 0) := by simp [hm]
        simp only [resolveKernels, if_neg hcond]
        exact ih _ ⟨n, hnr, hne⟩

/-- C4 (amended): when the cache check is passed, a device build failure
leaves the cache exactly unchanged and raises the build error; but an
entry-point resolution failure raises its error while RETAINING a cache entry
for the program name (holding the kernels resolved before the failure). -/
theorem compileKernel_failure_state (dev : Device) (st : KernelManagerState)
    (srcs : List String) (pname : String) (names : List String) (force : Bool)
    (flags : String)
    (hpass : ¬ ((alookup st.apps pname).isSome = true ∧ force = false)) :
    (dev.buildErr srcs flags ≠ 0 →
      compileKernel dev st srcs pname names force flags
        = (st, some ("Error building OpenCL program: " ++ pname ++ ", Error:"
            ++ toString (dev.buildErr srcs flags) ++ "\n" ++ dev.buildLog srcs flags))) ∧
    (dev.buildErr srcs flags = 0 →
      (∃ n ∈ names, dev.kernelErr srcs flags n ≠ 0) →
      (compileKernel dev st srcs pname names force flags).2.isSome = true ∧
      (alookup (compileKernel dev st srcs pname names force flags).1.apps pname).isSome
        = true) := by
  constructor
  · intro hbuild
    simp [compileKernel, hpass, hbuild]
  · intro hb hex
    constructor
    · simp only [compileKernel, if_neg hpass]
      simp only [hb, if_neg (by simp : ¬ ((0 : Int) ≠ 0))]
      exact resolveKernels_fail_isSome dev _ pname names _ hex
    · simp only [compileKernel, if_neg hpass]
      simp only [hb, if_neg (by simp : ¬ ((0 : Int) ≠ 0))]
      simp [alookup_ainsert]

/-- Witness for amended C4: both failure modes at concrete inputs. -/
theorem compileKernel_failure_state_witness :
    compileKernel dev4b kmEmpty ["s"] "q" ["k"] false ""
      = (kmEmpty, some ("Error building OpenCL program: " ++ "q" ++ ", Error:"
          ++ toString (dev4b.buildErr ["s"] "") ++ "\n" ++ dev4b.buildLog ["s"] "")) ∧
    ((compileKernel dev4 kmEmpty ["src"] "prog" ["k1", "k2"] false "").2.isSome = true ∧
      (alookup (compileKernel dev4 kmEmpty ["src"] "prog" ["k1", "k2"] false "").1.apps
        "prog").isSome = true) :=
  ⟨(compileKernel_failure_state dev4b kmEmpty ["s"] "q" ["k"] false "" (by decide)).1
      (by decide),
   (compileKernel_failure_state dev4 kmEmpty ["src"] "prog" ["k1", "k2"] false ""
      (by decide)).2 rfl ⟨"k2", by simp, by decide⟩⟩

/-! ### Program-name claims -/

/-- C7: each operation's program name is a deterministic function of its
specialization parameters (equal parameters give the identical name), and
whenever the hashes of two flag strings differ the derived program names
differ (the hex digest is injective and the operation prefix is fixed). -/
theorem programName_deterministic_distinct (h : String → Nat) :
    (∀ s1 m1 f1 s2 m2 f2, s1 = s2 → m1 = m2 → f1 = f2 →
      osProgramName h s1 m1 f1 = osProgramName h s2 m2 f2) ∧
    (∀ a1 b1 a2 b2, a1 = a2 → b1 = b2 →
      castProgramName h a1 b1 = castProgramName h a2 b2) ∧
    (∀ s1 m1 s2 m2, s1 = s2 → m1 = m2 →
      lcProgramName h s1 m1 = lcProgramName h s2 m2) ∧
    (∀ m1 m2, m1 = m2 → ssProgramName h m1 = ssProgramName h m2) ∧
    (∀ s1 s2, s1 = s2 → giProgramName h s1 = giProgramName h s2) ∧
    (∀ s1 m1 f1 s2 m2 f2, h (osArgs s1 m1 f1) ≠ h (osArgs s2 m2 f2) →
      osProgramName h s1 m1 f1 ≠ osProgramName h s2 m2 f2) ∧
    (∀ a1 b1 a2 b2, h (castArgs a1 b1) ≠ h (castArgs a2 b2) →
      castProgramName h a1 b1 ≠ castProgramName h a2 b2) ∧
    (∀ s1 m1 s2 m2, h (lcArgs s1 m1) ≠ h (lcArgs s2 m2) →
      lcProgramName h s1 m1 ≠ lcProgramName h s2 m2) ∧
    (∀ m1 m2, h (ssArgs m1) ≠ h (ssArgs m2) →
      ssProgramName h m1 ≠ ssProgramName h m2) ∧
    (∀ s1 s2, h (giArgs s1) ≠ h (giArgs s2) →
      giProgramName h s1 ≠ giProgramName h s2) := by
  refine ⟨?_, ?_, ?_, ?_, ?_, ?_, ?_, ?_, ?_, ?_⟩
  · intro s1 m1 f1 s2 m2 f2 hs hm hf
    rw [hs, hm, hf]
  · intro a1 b1 a2 b2 ha hb
    rw [ha, hb]
  · intro s1 m1 s2 m2 hs hm
    rw [hs, hm]
  · intro m1 m2 hm
    rw [hm]
  · intro s1 s2 hs
    rw [hs]
  · intro s1 m1 f1 s2 m2 f2 hne
    exact programName_ne_of_hash_ne h "overlapScore" _ _ hne
  · intro a1 b1 a2 b2 hne
    exact programName_ne_of_hash_ne h "cast" _ _ hne
  · intro s1 m1 s2 m2 hne
    exact programName_ne_of_hash_ne h "learnCorrilation" _ _ hne
  · intro m1 m2 hne
    exact programName_ne_of_hash_ne h "sortSynapse" _ _ hne
  · intro s1 s2 hne
    exact programName_ne_of_hash_ne h "overlapScore" _ _ hne

/-- Witness for C7: identical parameters give the identical `overlapScore`
program name, and parameters whose flag strings hash differently give
distinct names. -/
theorem programName_deterministic_distinct_witness :
    osProgramName h0 1 1 true = osProgramName h0 1 1 true ∧
    h0 (osArgs 1 1 true) ≠ h0 (osArgs 10 1 true) ∧
    osProgramName h0 1 1 true ≠ osProgramName h0 10 1 true :=
  ⟨(programName_deterministic_distinct h0).1 1 1 true 1 1 true rfl rfl rfl,
   by decide,
   (programName_deterministic_distinct h0).2.2.2.2.2.1 1 1 true 10 1 true (by decide)⟩

/-- C10: `globalInhibition` registers its program under the `"overlapScore"`
prefix — the very prefix `overlapScore` uses — so the two operations share
one name namespace: their cache keys coincide exactly when the hex digests of
their flag strings coincide, and differ whenever the hashes differ. -/
theorem giProgramName_shares_os_namespace (h : String → Nat) (inputSize : Nat) :
    giProgramName h inputSize = "overlapScore" ++ hash_string h (giArgs inputSize) ∧
    (∀ s m f, osProgramName h s m f = "overlapScore" ++ hash_string h (osArgs s m f)) ∧
    (∀ s m f, hash_string h (giArgs inputSize) = hash_string h (osArgs s m f) →
      giProgramName h inputSize = osProgramName h s m f) ∧
    (∀ s m f, h (giArgs inputSize) ≠ h (osArgs s m f) →
      giProgramName h inputSize ≠ osProgramName h s m f) := by
  refine ⟨rfl, fun s m f => rfl, ?_, ?_⟩
  · intro s m f heq
    show "overlapScore" ++ hash_string h (giArgs inputSize)
      = "overlapScore" ++ hash_string h (osArgs s m f)
    rw [heq]
  · intro s m f hne
    exact programName_ne_of_hash_ne h "overlapScore" _ _ hne

/-- Witness for C10 at a concrete hash and size: the name is the prefixed
digest, and with `h0` the inhibition and overlap flag strings hash apart, so
the names differ. -/
theorem giProgramName_shares_os_namespace_witness :
    giProgramName h0 5 = "overlapScore" ++ hash_string h0 (giArgs 5) ∧
    h0 (giArgs 5) ≠ h0 (osArgs 3 7 true) ∧
    giProgramName h0 5 ≠ osProgramName h0 3 7 true :=
  ⟨(giProgramName_shares_os_namespace h0 5).1,
   by decide,
   (giProgramName_shares_os_namespace h0 5).2.2.2 3 7 true (by decide)⟩

/-! ### Backend-operation lemmas -/

theorem compileFromFileB_eq (env : Env) (st : BackendState) (paths : List String)
    (pn : String) (kn : List String) (fo : Bool) (fl : String) :
    compileFromFileB env st paths pn kn fo fl
      = ({st with km := (compileFromFile env.dev env.files st.km paths pn kn fo fl).1},
         (compileFromFile env.dev env.files st.km paths pn kn fo fl).2) := rfl

/-- What a successful `createTensor` returns: the fresh buffer id, the
appended buffer size, one more than before, and a non-Unknown dtype. -/
theorem createTensor_ok_spec (env : Env) (st : BackendState) (shape : List Nat)
    (dtype : DType) (hd : Bool) (st' : BackendState) (r : Tensor)
    (hc : createTensor env st shape dtype hd = (st', Except.ok r)) :
    r = ⟨shape, dtype, st.bufSizes.length⟩ ∧
    st'.bufSizes = st.bufSizes ++ [volume shape * dtypeToSize dtype] ∧
    dtype ≠ DType.Unknown := by
  simp only [createTensor] at hc
  split at hc
  · simp at hc
  · rename_i hdt
    split at hc
    · split at hc
      · simp at hc
      · split at hc
        · simp at hc
        · rw [Prod.mk.injEq] at hc
          obtain ⟨hst, hr⟩ := hc
          rw [Except.ok.injEq] at hr
          exact ⟨hr.symm, by rw [← hst]; rfl, hdt⟩
    · rw [Prod.mk.injEq] at hc
      obtain ⟨hst, hr⟩ := hc
      rw [Except.ok.injEq] at hr
      exact ⟨hr.symm, by rw [← hst]; rfl, hdt⟩

/-- What a successful `copy` returns. -/
theorem copy_ok_spec (env : Env) (st : BackendState) (x : Tensor)
    (st' : BackendState) (r : Tensor)
    (hc : copy env st x = (st', Except.ok r)) :
    r = ⟨x.shape, x.dtype, st.bufSizes.length⟩ ∧
    st'.bufSizes = st.bufSizes ++ [x.size * dtypeToSize x.dtype] := by
  simp only [copy] at hc
  split at hc
  · simp at hc
  · rw [Prod.mk.injEq] at hc
    obtain ⟨hst, hr⟩ := hc
    rw [Except.ok.injEq] at hr
    exact ⟨hr.symm, by rw [← hst]; rfl⟩

/-- What a successful `cast` returns. -/
theorem cast_ok_spec (env : Env) (st : BackendState) (x : Tensor) (toType : DType)
    (st' : BackendState) (res : Tensor)
    (hc : cast env st x toType = (st', Except.ok res)) :
    res = ⟨x.shape, toType, st.bufSizes.length⟩ ∧
    st'.bufSizes = st.bufSizes ++ [volume x.shape * dtypeToSize toType] ∧
    toType ≠ DType.Unknown := by
  rcases hre : (compileFromFile env.dev env.files st.km [env.kernel_root ++ "cast.cl"]
      (castProgramName env.strHash x.dtype toType) ["cast"] false
      (castArgs x.dtype toType)).2 with _ | e
  · rcases hct : createTensor env
        ({st with km := (compileFromFile env.dev env.files st.km
          [env.kernel_root ++ "cast.cl"] (castProgramName env.strHash x.dtype toType)
          ["cast"] false (castArgs x.dtype toType)).1}) x.shape toType false with ⟨st2, r2⟩
    cases r2 with
    | error e2 =>
        have hcast : cast env st x toType = (st2, Except.error e2) := by
          simp only [cast, compileFromFileB_eq, hre, hct]
        rw [hcast] at hc
        simp at hc
    | ok r2 =>
        have hcast : cast env st x toType = ((enq env.dev st2).1, Except.ok r2) := by
          simp only [cast, compileFromFileB_eq, hre, hct]
        rw [hcast] at hc
        rw [Prod.mk.injEq] at hc
        obtain ⟨hst, hr⟩ := hc
        rw [Except.ok.injEq] at hr
        obtain ⟨hr2, hbuf, hdt⟩ := createTensor_ok_spec _ _ _ _ _ _ _ hct
        subst hr
        refine ⟨hr2, ?_, hdt⟩
        rw [← hst]
        show st2.bufSizes = _
        exact hbuf
  · have hcast : cast env st x toType
        = ({st with km := (compileFromFile env.dev env.files st.km
            [env.kernel_root ++ "cast.cl"] (castProgramName env.strHash x.dtype toType)
            ["cast"] false (castArgs x.dtype toType)).1}, Except.error e) := by
      simp only [cast, compileFromFileB_eq, hre]
    rw [hcast] at hc
    simp at hc

theorem createTensor_bufExt (env : Env) (st : BackendState) (shape : List Nat)
    (dtype : DType) (hd : Bool) :
    ∃ l, (createTensor env st shape dtype hd).1.bufSizes = st.bufSizes ++ l := by
  simp only [createTensor]
  split
  · exact ⟨[], by simp⟩
  · split
    · split
      · exact ⟨_, rfl⟩
      · split
        · exact ⟨_, rfl⟩
        · exact ⟨_, rfl⟩
    · exact ⟨_, rfl⟩

theorem copy_bufExt (env : Env) (st : BackendState) (x : Tensor) :
    ∃ l, (copy env st x).1.bufSizes = st.bufSizes ++ l := by
  simp only [copy]
  split
  · exact ⟨_, rfl⟩
  · exact ⟨_, rfl⟩

theorem cast_bufExt (env : Env) (st : BackendState) (x : Tensor) (toType : DType) :
    ∃ l, (cast env st x toType).1.bufSizes = st.bufSizes ++ l := by
  rcases hre : (compileFromFile env.dev env.files st.km [env.kernel_root ++ "cast.cl"]
      (castProgramName env.strHash x.dtype toType) ["cast"] false
      (castArgs x.dtype toType)).2 with _ | e
  · rcases hct : createTensor env
        ({st with km := (compileFromFile env.dev env.files st.km
          [env.kernel_root ++ "cast.cl"] (castProgramName env.strHash x.dtype toType)
          ["cast"] false (castArgs x.dtype toType)).1}) x.shape toType false with ⟨st2, r2⟩
    obtain ⟨l, hl⟩ := createTensor_bufExt env
      ({st with km := (compileFromFile env.dev env.files st.km
        [env.kernel_root ++ "cast.cl"] (castProgramName env.strHash x.dtype toType)
        ["cast"] false (castArgs x.dtype toType)).1}) x.shape toType false
    rw [hct] at hl
    cases r2 with
    | error e2 =>
        have hcast : cast env st x toType = (st2, Except.error e2) := by
          simp only [cast, compileFromFileB_eq, hre, hct]
        rw [hcast]
        exact ⟨l, hl⟩
    | ok r2 =>
        have hcast : cast env st x toType = ((enq env.dev st2).1, Except.ok r2) := by
          simp only [cast, compileFromFileB_eq, hre, hct]
        rw [hcast]
        exact ⟨l, hl⟩
  · have hcast : cast env st x toType
        = ({st with km := (compileFromFile env.dev env.files st.km
            [env.kernel_root ++ "cast.cl"] (castProgramName env.strHash x.dtype toType)
            ["cast"] false (castArgs x.dtype toType)).1}, Except.error e) := by
      simp only [cast, compileFromFileB_eq, hre]
    rw [hcast]
    exact ⟨[], by simp⟩

theorem overlapScore_bufSizes (env : Env) (st : BackendState) (x c p y : Tensor)
    (hu : Bool) :
    (overlapScore env st x c p y hu).1.bufSizes = st.bufSizes := by
  rcases hre : (compileFromFile env.dev env.files st.km
      [env.kernel_root ++ "overlapScore.cl"]
      (osProgramName env.strHash x.size (backDim c.shape) hu) ["overlapScore"] false
      (osArgs x.size (backDim c.shape) hu)).2 with _ | e
  all_goals
    simp only [overlapScore, compileFromFileB_eq, hre]
    repeat' split
    all_goals rfl

theorem learnCorrilation_bufSizes (env : Env) (st : BackendState)
    (x learn c p : Tensor) :
    (learnCorrilation env st x learn c p).1.bufSizes = st.bufSizes := by
  rcases hre : (compileFromFile env.dev env.files st.km
      [env.kernel_root ++ "learnCorrilation.cl"]
      (lcProgramName env.strHash x.size (backDim c.shape)) ["learnCorrilation"] false
      (lcArgs x.size (backDim c.shape))).2 with _ | e
  all_goals
    simp only [learnCorrilation, compileFromFileB_eq, hre]
    repeat' split
    all_goals rfl

theorem globalInhibition_bufExt (env : Env) (st : BackendState) (x y : Tensor) :
    ∃ l, (globalInhibition env st x y).1.bufSizes = st.bufSizes ++ l := by
  rcases hre : (compileFromFile env.dev env.files st.km
      [env.kernel_root ++ "globalInhibition.cl"]
      (giProgramName env.strHash x.size) ["fastTopK", "threshold"] false
      (giArgs x.size)).2 with _ | e
  all_goals
    simp only [globalInhibition, compileFromFileB_eq, hre]
    repeat' split
    all_goals first
      | exact ⟨_, rfl⟩
      | exact ⟨[], by simp⟩

theorem sortSynapse_bufExt (env : Env) (st : BackendState) (c p : Tensor) :
    ∃ l, (sortSynapse env st c p).1.bufSizes = st.bufSizes ++ l := by
  rcases hre : (compileFromFile env.dev env.files st.km [env.kernel_root ++ "sort.cl"]
      (ssProgramName env.strHash (backDim c.shape)) ["sortSynapse"] false
      (ssArgs (backDim c.shape))).2 with _ | e
  · simp only [sortSynapse, compileFromFileB_eq, hre]
    split
    · exact ⟨[], (List.append_nil _).symm⟩
    split
    · exact ⟨[], (List.append_nil _).symm⟩
    split
    · exact ⟨[], (List.append_nil _).symm⟩
    split
    · exact ⟨[c.size * 4, p.size * 4], by simp [enq, allocBuffer]⟩
    · exact ⟨[c.size * 4, p.size * 4], by simp [enq, allocBuffer]⟩
  · simp only [sortSynapse, compileFromFileB_eq, hre]
    split
    · exact ⟨[], (List.append_nil _).symm⟩
    split
    · exact ⟨[], (List.append_nil _).symm⟩
    split
    · exact ⟨[], (List.append_nil _).symm⟩
    exact ⟨[], (List.append_nil _).symm⟩

/-- C8: a successful `cast(x, targetType)` returns a tensor with exactly `x`'s
shape, dtype `targetType`, and a freshly allocated buffer (the next buffer
id), distinct from `x`'s buffer whenever `x`'s buffer was allocated by this
backend; the new buffer's byte size is `volume(x.shape) * size_of(targetType)`. -/
theorem cast_result (env : Env) (st : BackendState) (x : Tensor) (toType : DType)
    (st' : BackendState) (res : Tensor)
    (hx : x.bufferId < st.bufSizes.length)
    (hc : cast env st x toType = (st', Except.ok res)) :
    res.shape = x.shape ∧ res.dtype = toType ∧ res.bufferId = st.bufSizes.length ∧
    res.bufferId ≠ x.bufferId ∧
    st'.bufSizes[res.bufferId]? = some (volume x.shape * dtypeToSize toType) := by
  obtain ⟨hr, hbuf, -⟩ := cast_ok_spec env st x toType st' res hc
  subst hr
  refine ⟨rfl, rfl, rfl, ?_, ?_⟩
  · show st.bufSizes.length ≠ x.bufferId
    omega
  · rw [hbuf]
    exact List.getElem?_concat_length _ _

/-- Witness for C8: casting a 4-element Int32 tensor to Float yields a Float
tensor of the same shape in the freshly allocated buffer 2. -/
theorem cast_result_witness :
    x5.bufferId < st5.bufSizes.length ∧
    ((⟨[4], DType.Float, 2⟩ : Tensor).shape = x5.shape ∧
     (⟨[4], DType.Float, 2⟩ : Tensor).dtype = DType.Float ∧
     (⟨[4], DType.Float, 2⟩ : Tensor).bufferId = st5.bufSizes.length ∧
     (⟨[4], DType.Float, 2⟩ : Tensor).bufferId ≠ x5.bufferId ∧
     (cast env5 st5 x5 DType.Float).1.bufSizes[(⟨[4], DType.Float, 2⟩ : Tensor).bufferId]?
       = some (volume x5.shape * dtypeToSize DType.Float)) :=
  ⟨by decide,
   cast_result env5 st5 x5 DType.Float (cast env5 st5 x5 DType.Float).1
     ⟨[4], DType.Float, 2⟩ (by decide) rfl⟩

/-- C9: every tensor handle a backend operation returns satisfies
`buffer byte size = volume(shape) * size_of(dtype)`, and no backend operation
ever changes the size of an already-allocated buffer (shape and dtype of a
handle are immutable fields of the handle itself). -/
theorem tensor_buffer_invariant :
    (∀ env st shape dtype hd st' r,
      createTensor env st shape dtype hd = (st', Except.ok r) → validTensor st' r) ∧
    (∀ env st x st' r, copy env st x = (st', Except.ok r) → validTensor st' r) ∧
    (∀ env st x toType st' res,
      cast env st x toType = (st', Except.ok res) → validTensor st' res) ∧
    (∀ env st shape dtype hd t, validTensor st t →
      validTensor (createTensor env st shape dtype hd).1 t) ∧
    (∀ env st x t, validTensor st t → validTensor (copy env st x).1 t) ∧
    (∀ env st x toType t, validTensor st t → validTensor (cast env st x toType).1 t) ∧
    (∀ env st x c p y hu t, validTensor st t →
      validTensor (overlapScore env st x c p y hu).1 t) ∧
    (∀ env st x y t, validTensor st t → validTensor (globalInhibition env st x y).1 t) ∧
    (∀ env st x learn c p t, validTensor st t →
      validTensor (learnCorrilation env st x learn c p).1 t) ∧
    (∀ env st c p t, validTensor st t → validTensor (sortSynapse env st c p).1 t) := by
  refine ⟨?_, ?_, ?_, ?_, ?_, ?_, ?_, ?_, ?_, ?_⟩
  · intro env st shape dtype hd st' r hc
    obtain ⟨hr, hbuf, -⟩ := createTensor_ok_spec env st shape dtype hd st' r hc
    subst hr
    unfold validTensor
    rw [hbuf]
    exact List.getElem?_concat_length _ _
  · intro env st x st' r hc
    obtain ⟨hr, hbuf⟩ := copy_ok_spec env st x st' r hc
    subst hr
    unfold validTensor
    rw [hbuf]
    exact List.getElem?_concat_length _ _
  · intro env st x toType st' res hc
    obtain ⟨hr, hbuf, -⟩ := cast_ok_spec env st x toType st' res hc
    subst hr
    unfold validTensor
    rw [hbuf]
    exact List.getElem?_concat_length _ _
  · intro env st shape dtype hd t ht
    exact validTensor_mono st _ t (createTensor_bufExt env st shape dtype hd) ht
  · intro env st x t ht
    exact validTensor_mono st _ t (copy_bufExt env st x) ht
  · intro env st x toType t ht
    exact validTensor_mono st _ t (cast_bufExt env st x toType) ht
  · intro env st x c p y hu t ht
    exact validTensor_mono st _ t ⟨[], by simp [overlapScore_bufSizes]⟩ ht
  · intro env st x y t ht
    exact validTensor_mono st _ t (globalInhibition_bufExt env st x y) ht
  · intro env st x learn c p t ht
    exact validTensor_mono st _ t ⟨[], by simp [learnCorrilation_bufSizes]⟩ ht
  · intro env st c p t ht
    exact validTensor_mono st _ t (sortSynapse_bufExt env st c p) ht

/-- Witness for C9 at concrete runs: the tensor created by a concrete
`createTensor` call satisfies the invariant, and a concrete `sortSynapse`
call leaves an existing tensor's buffer size intact. -/
theorem tensor_buffer_invariant_witness :
    validTensor (createTensor env5 st5 [2, 3] DType.Float false).1
      ⟨[2, 3], DType.Float, 2⟩ ∧
    validTensor (sortSynapse env5 st5 ⟨[4], DType.Int32, 0⟩ ⟨[4], DType.Float, 1⟩).1 x5 :=
  ⟨tensor_buffer_invariant.1 env5 st5 [2, 3] DType.Float false
     (createTensor env5 st5 [2, 3] DType.Float false).1 ⟨[2, 3], DType.Float, 2⟩ rfl,
   tensor_buffer_invariant.2.2.2.2.2.2.2.2.2 env5 st5 ⟨[4], DType.Int32, 0⟩
     ⟨[4], DType.Float, 1⟩ x5 rfl⟩

/-- C5 counterexample: on a device that reports error −54 for every queue
operation, `globalInhibition` and `cast` still return success — the code
discards the result codes of their `enqueueNDRangeKernel` calls. -/
theorem enqueue_failure_ignored_cex :
    dev5.enqueue 0 = -54 ∧ dev5.enqueue 1 = -54 ∧ dev5.enqueue 2 = -54 ∧
    (globalInhibition env5 st5 x5 y5).2 = Except.ok () ∧
    (cast env5 st5 x5 DType.Float).2 = Except.ok ⟨[4], DType.Float, 2⟩ :=
  ⟨rfl, rfl, rfl, rfl, rfl⟩

/-- C5 (amended): `overlapScore`, `learnCorrilation` and `sortSynapse` raise
`"OpenCL kernel execution failed. Code <err>"` — carrying the device error
code but not the operation name — when their kernel enqueue reports a
failure; `globalInhibition` and `cast` discard their enqueue result codes and
return success regardless, so their device-reported enqueue failures are
silently ignored. -/
theorem dispatch_enqueue_error_policy :
    (∀ (env : Env) (st : BackendState) (x c p y : Tensor) (hu : Bool),
      x.dtype = DType.Bool → c.dtype = DType.Int32 → p.dtype = DType.Float →
      y.dtype = DType.Int32 → c.shape = p.shape →
      (compileFromFile env.dev env.files st.km [env.kernel_root ++ "overlapScore.cl"]
        (osProgramName env.strHash x.size (backDim c.shape) hu) ["overlapScore"] false
        (osArgs x.size (backDim c.shape) hu)).2 = none →
      env.dev.enqueue st.enqueueCount ≠ 0 →
      (overlapScore env st x c p y hu).2
        = Except.error ("OpenCL kernel execution failed. Code "
            ++ toString (env.dev.enqueue st.enqueueCount))) ∧
    (∀ (env : Env) (st : BackendState) (x learn c p : Tensor),
      c.shape = p.shape → x.shape = learn.shape → x.dtype = DType.Bool →
      learn.dtype = DType.Bool → c.dtype = DType.Int32 → p.dtype = DType.Float →
      (compileFromFile env.dev env.files st.km [env.kernel_root ++ "learnCorrilation.cl"]
        (lcProgramName env.strHash x.size (backDim c.shape)) ["learnCorrilation"] false
        (lcArgs x.size (backDim c.shape))).2 = none →
      env.dev.enqueue st.enqueueCount ≠ 0 →
      (learnCorrilation env st x learn c p).2
        = Except.error ("OpenCL kernel execution failed. Code "
            ++ toString (env.dev.enqueue st.enqueueCount))) ∧
    (∀ (env : Env) (st : BackendState) (c p : Tensor),
      c.shape = p.shape → c.dtype = DType.Int32 → p.dtype = DType.Float →
      (compileFromFile env.dev env.files st.km [env.kernel_root ++ "sort.cl"]
        (ssProgramName env.strHash (backDim c.shape)) ["sortSynapse"] false
        (ssArgs (backDim c.shape))).2 = none →
      env.dev.enqueue st.enqueueCount ≠ 0 →
      (sortSynapse env st c p).2
        = Except.error ("OpenCL kernel execution failed. Code "
            ++ toString (env.dev.enqueue st.enqueueCount))) ∧
    (∀ (env : Env) (st : BackendState) (x y : Tensor),
      x.dtype = DType.Int32 → y.dtype = DType.Bool → x.shape = y.shape →
      (compileFromFile env.dev env.files st.km [env.kernel_root ++ "globalInhibition.cl"]
        (giProgramName env.strHash x.size) ["fastTopK", "threshold"] false
        (giArgs x.size)).2 = none →
      (globalInhibition env st x y).2 = Except.ok ()) ∧
    (∀ (env : Env) (st : BackendState) (x : Tensor) (toType : DType),
      toType ≠ DType.Unknown →
      (compileFromFile env.dev env.files st.km [env.kernel_root ++ "cast.cl"]
        (castProgramName env.strHash x.dtype toType) ["cast"] false
        (castArgs x.dtype toType)).2 = none →
      (cast env st x toType).2 = Except.ok ⟨x.shape, toType, st.bufSizes.length⟩) := by
  refine ⟨?_, ?_, ?_, ?_, ?_⟩
  · intro env st x c p y hu h1 h2 h3 h4 h5 hcomp henq
    simp only [overlapScore, compileFromFileB_eq, hcomp]
    rw [if_neg (not_not_intro h1), if_neg (not_not_intro h2), if_neg (not_not_intro h3),
        if_neg (not_not_intro h4), if_neg (not_not_intro h5)]
    dsimp only [enq]
    rw [if_pos henq]
  · intro env st x learn c p h1 h2 h3 h4 h5 h6 hcomp henq
    simp only [learnCorrilation, compileFromFileB_eq, hcomp]
    rw [if_neg (not_not_intro h1), if_neg (not_not_intro h2), if_neg (not_not_intro h3),
        if_neg (not_not_intro h4), if_neg (not_not_intro h5), if_neg (not_not_intro h6)]
    dsimp only [enq]
    rw [if_pos henq]
  · intro env st c p h1 h2 h3 hcomp henq
    simp only [sortSynapse, compileFromFileB_eq, hcomp]
    rw [if_neg (not_not_intro h1), if_neg (not_not_intro h2), if_neg (not_not_intro h3)]
    dsimp only [enq, allocBuffer]
    rw [if_pos henq]
  · intro env st x y h1 h2 h3 hcomp
    simp only [globalInhibition, compileFromFileB_eq, hcomp]
    rw [if_neg (not_not_intro h1), if_neg (not_not_intro h2), if_neg (not_not_intro h3)]
  · intro env st x toType ht hcomp
    have hct : createTensor env
        ({st with km := (compileFromFile env.dev env.files st.km
          [env.kernel_root ++ "cast.cl"] (castProgramName env.strHash x.dtype toType)
          ["cast"] false (castArgs x.dtype toType)).1}) x.shape toType false
        = ({st with
              km := (compileFromFile env.dev env.files st.km
                [env.kernel_root ++ "cast.cl"] (castProgramName env.strHash x.dtype toType)
                ["cast"] false (castArgs x.dtype toType)).1,
              bufSizes := st.bufSizes ++ [volume x.shape * dtypeToSize toType]},
           Except.ok ⟨x.shape, toType, st.bufSizes.length⟩) := by
      simp [createTensor, allocBuffer, ht]
    simp only [cast, compileFromFileB_eq, hcomp, hct]

/-- Witness for amended C5: on the always-failing device, `overlapScore`
raises the execution-failure message with code −54 while `globalInhibition`
returns success. -/
theorem dispatch_enqueue_error_policy_witness :
    (overlapScore env5 st5b x5b c5 p5 y5b true).2
      = Except.error ("OpenCL kernel execution failed. Code "
          ++ toString (env5.dev.enqueue st5b.enqueueCount)) ∧
    (globalInhibition env5 st5 x5 y5).2 = Except.ok () :=
  ⟨dispatch_enqueue_error_policy.1 env5 st5b x5b c5 p5 y5b true rfl rfl rfl rfl rfl rfl
     (by decide),
   dispatch_enqueue_error_policy.2.2.2.1 env5 st5 x5 y5 rfl rfl rfl rfl⟩

end et
